import Mathlib

/-!
Shallow embedding of the nexus-cli dashboard state updaters
(`clients/cli/src/ui/dashboard/updaters.rs`) and proofs about them.

Wall-clock instants are embedded as integer counts of nanoseconds
(Rust's `Instant` and `Duration` are integer nanosecond values; a
`Duration` saturates at zero); every call to the Rust `Instant::now()`
inside one update cycle is modelled by the explicit clock argument
`now` of that cycle.  Strings are handled at the character level (all
message patterns involved are ASCII, so Rust's byte indices coincide
with character indices).
-/

namespace NexusDashboard

/-- Modelled from the spec: the pipeline stage role that emits an event
(the events module is outside the aggregator source); a `Prover` carries
a numeric worker id. -/
inductive Worker
  | TaskFetcher
  | Prover (id : Nat)
  | ProofSubmitter
deriving DecidableEq

/-- Modelled from the spec: coarse outcome classification of an event. -/
inductive EventType
  | Success
  | Error
  | StateChange
  | Info
deriving DecidableEq

/-- Modelled from the spec: a worker event; the `prover_state` payload is
an abstract state token (its enum lives outside the aggregator source). -/
structure Event where
  timestamp : String
  worker : Worker
  event_type : EventType
  msg : String
  prover_state : Option Nat
deriving DecidableEq

/-- Rust `str::find` with a char pattern: index of the first occurrence. -/
def findChar (s : List Char) (c : Char) : Option Nat :=
  s.findIdx? (fun d => d == c)

/-- Rust `str::find` with a string pattern: index of the first position at
which the pattern starts. -/
def findSub (pat : List Char) : List Char → Option Nat
  | [] => if List.isPrefixOf pat ([] : List Char) then some 0 else none
  | c :: t =>
    if List.isPrefixOf pat (c :: t) then some 0
    else (findSub pat t).map (fun i => i + 1)

/-- Rust `str::contains` with a string pattern: the pattern occurs as a
contiguous substring. -/
def strContains (s pat : String) : Bool :=
  (findSub pat.data s.data).isSome

/-- Numeric value of a digit string (used under an all-digits guard). -/
def digitsToNat (s : List Char) : Nat :=
  s.foldl (fun a c => a * 10 + (c.toNat - 48)) 0

/-- Rust `str::parse::<u64>`: an optional leading plus sign, then one or
more decimal digits, and the value fits in a u64. -/
def parseU64 (s : List Char) : Option Nat :=
  let body := match s with
    | '+' :: rest => rest
    | _ => s
  if !body.isEmpty && body.all Char.isDigit && digitsToNat body < 2 ^ 64 then
    some (digitsToNat body)
  else none

/-- A wall-clock instant, as nanoseconds. -/
abbrev Instant := ℤ

/-- Nanoseconds in one second. -/
def nanosPerSec : Nat := 1000000000

/-- Rust `now - start` as a `Duration`: nanoseconds, saturating at zero. -/
def elapsedNanos (start now : Instant) : Nat :=
  (now - start).toNat

/-- Rust `start.elapsed().as_secs()` against the explicit clock `now`:
whole elapsed seconds. -/
def elapsedSecs (start now : Instant) : Nat :=
  elapsedNanos start now / nanosPerSec

/-- Modelled from the spec: the latest resource sample (the
`ui::metrics` module is outside the aggregator source); only the peak
RAM figure matters to the claims. -/
structure SystemMetrics where
  cpu_percent : ℚ
  ram_bytes : Nat
  peak_ram_bytes : Nat
deriving DecidableEq

/-- Modelled from the spec: `SystemMetrics::update` returns the fresh
sample with a peak RAM at least the previous peak (the monotone-peak
invariant is enforced by taking the max with the new reading). -/
def SystemMetrics.update (sample : SystemMetrics) (previous_peak : Nat) :
    SystemMetrics :=
  { sample with peak_ram_bytes := max previous_peak sample.ram_bytes }

/-- Modelled from the spec: published backoff information. -/
structure TaskFetchInfo where
  backoff_duration_secs : Nat
  time_since_last_fetch_secs : Nat
  can_fetch_now : Bool
deriving DecidableEq

/-- Modelled from the spec: published zkVM metrics. -/
structure ZkVMMetrics where
  tasks_executed : Nat
  tasks_proved : Nat
  zkvm_runtime_secs : Nat
  last_task_status : String
  total_points : Nat
deriving DecidableEq

/-- Fetch activity: idle, active since a wall-clock instant, or timed out. -/
inductive FetchingState
  | Idle
  | Active (started_at : Instant)
  | Timeout
deriving DecidableEq

/-- Modelled from the spec: the aggregator snapshot (the dashboard state
struct itself is outside the aggregator source; its fields are exactly
those read and written by the updaters). -/
structure DashboardState where
  tick : Nat
  current_task : Option String
  system_metrics : SystemMetrics
  zkvm_metrics : ZkVMMetrics
  task_fetch_info : TaskFetchInfo
  fetching_state : FetchingState
  waiting_start_info : Option (Instant × Nat)
  last_submission_timestamp : Option String
  step2_start_time : Option Instant
  accumulated_runtime_secs : Nat
  current_prover_state : Option Nat
  events : List Event
deriving DecidableEq

/-- One candidate step of the `update_task_fetch_info` scan: for a
TaskFetcher event whose message contains "ready for next task", the
seconds parsed from between the first open paren and the first close
paren; any failed check yields `none` and the scan moves on. -/
def backoffSecs (e : Event) : Option Nat :=
  if e.worker == Worker.TaskFetcher then
    if strContains e.msg "ready for next task" then
      match findChar e.msg.data '(', findChar e.msg.data ')' with
      | some start, some stop =>
        if start < stop then
          parseU64 ((e.msg.data.drop (start + 1)).take (stop - (start + 1)))
        else none
      | _, _ => none
    else none
  else none

/-- The scanning loop of `update_task_fetch_info`: walks the window,
and at the first parsable backoff message re-anchors
`waiting_start_info` when the declared duration is new, then publishes
the countdown; if the window is exhausted it publishes the optimistic
default. -/
def update_task_fetch_info_aux (now : Instant) :
    Option (Instant × Nat) → List Event → Option (Instant × Nat) × TaskFetchInfo
  | wsi, [] =>
    (wsi, { backoff_duration_secs := 0, time_since_last_fetch_secs := 0,
            can_fetch_now := true })
  | wsi, e :: rest =>
    match backoffSecs e with
    | none => update_task_fetch_info_aux now wsi rest
    | some original_wait_secs =>
      let is_same_message : Bool :=
        match wsi with
        | some (_, prev_wait) => prev_wait == original_wait_secs
        | none => false
      let wsi' := if is_same_message then wsi else some (now, original_wait_secs)
      match wsi' with
      | some (start_time, original_secs) =>
        let elapsed := elapsedSecs start_time now
        let remaining := original_secs - elapsed
        (some (start_time, original_secs),
         { backoff_duration_secs := original_secs,
           time_since_last_fetch_secs := elapsed,
           can_fetch_now := remaining == 0 })
      | none => update_task_fetch_info_aux now none rest

/-- `DashboardState::update_task_fetch_info`. -/
def DashboardState.update_task_fetch_info (s : DashboardState) (now : Instant) :
    DashboardState :=
  let r := update_task_fetch_info_aux now s.waiting_start_info
    (s.events.reverse.take 20)
  { s with waiting_start_info := r.1, task_fetch_info := r.2 }

/-- Accumulator of the `update_zkvm_metrics` event loop: the local
counters together with the state fields the loop reads and writes. -/
structure ZkAcc where
  tasks_fetched : Nat
  tasks_submitted : Nat
  last_status : String
  step2_start_time : Option Instant
  accumulated_runtime_secs : Nat
  last_submission_timestamp : Option String
deriving DecidableEq

/-- One iteration of the `update_zkvm_metrics` event loop. -/
def zkStep (now : Instant) (a : ZkAcc) (e : Event) : ZkAcc :=
  match e.worker with
  | Worker.TaskFetcher =>
    if e.event_type == EventType.Success
        && !strContains e.msg "rate limited"
        && !strContains e.msg "retrying"
        && !strContains e.msg "Step 1 of 4" then
      { a with tasks_fetched := a.tasks_fetched + 1 }
    else a
  | Worker.Prover _ =>
    if e.event_type == EventType.Success then
      if strContains e.msg "Step 2 of 4: Proving task" then
        { a with step2_start_time := some now }
      else if strContains e.msg "Step 3 of 4: Proof generated for task" then
        match a.step2_start_time with
        | some start_time =>
          let duration_nanos := elapsedNanos start_time now
          if 0 < duration_nanos then
            { a with step2_start_time := none,
                     accumulated_runtime_secs :=
                       a.accumulated_runtime_secs + duration_nanos / nanosPerSec,
                     last_status := "Proved" }
          else { a with step2_start_time := none }
        | none => a
      else a
    else if e.event_type == EventType.Error then
      { a with last_status := "Proof Failed" }
    else a
  | Worker.ProofSubmitter =>
    if e.event_type == EventType.Success
        && strContains e.msg "Step 4 of 4: Proof submitted successfully" then
      { a with tasks_submitted := a.tasks_submitted + 1,
               last_status := "Success",
               last_submission_timestamp := some e.timestamp }
    else if e.event_type == EventType.Error then
      { a with last_status := "Submit Failed" }
    else a

/-- `DashboardState::update_zkvm_metrics`: fold the whole event history
and publish the derived metrics. -/
def DashboardState.update_zkvm_metrics (s : DashboardState) (now : Instant) :
    DashboardState :=
  let a := s.events.foldl (zkStep now)
    { tasks_fetched := 0, tasks_submitted := 0, last_status := "None",
      step2_start_time := s.step2_start_time,
      accumulated_runtime_secs := s.accumulated_runtime_secs,
      last_submission_timestamp := s.last_submission_timestamp }
  { s with
      step2_start_time := a.step2_start_time,
      accumulated_runtime_secs := a.accumulated_runtime_secs,
      last_submission_timestamp := a.last_submission_timestamp,
      zkvm_metrics :=
        { tasks_executed := max a.tasks_submitted a.tasks_fetched,
          tasks_proved := a.tasks_submitted,
          zkvm_runtime_secs := a.accumulated_runtime_secs,
          last_task_status := a.last_status,
          total_points := a.tasks_submitted * 300 } }

/-- Rust `char::is_whitespace`: the Unicode White_Space property
(U+0009..U+000D, U+0020, U+0085, U+00A0, U+1680, U+2000..U+200A,
U+2028, U+2029, U+202F, U+205F, U+3000). -/
def rustIsWhitespace (c : Char) : Bool :=
  (0x09 ≤ c.toNat && c.toNat ≤ 0x0D) || c.toNat == 0x20 || c.toNat == 0x85
    || c.toNat == 0xA0 || c.toNat == 0x1680
    || (0x2000 ≤ c.toNat && c.toNat ≤ 0x200A)
    || c.toNat == 0x2028 || c.toNat == 0x2029 || c.toNat == 0x202F
    || c.toNat == 0x205F || c.toNat == 0x3000

/-- The inline task-id extraction of `update_current_task`: locate
"Task-", cut at the first Unicode-whitespace character after it, or
take the rest of the message when it extends past the bare marker. -/
def extractTaskId (msg : String) : Option String :=
  match findSub ("Task-".data) msg.data with
  | some task_start =>
    let remaining := msg.data.drop task_start
    match remaining.findIdx? (fun c => rustIsWhitespace c || c == '\n') with
    | some task_end => some (String.mk (remaining.take task_end))
    | none =>
      if remaining.length > 5 then some (String.mk remaining) else none
  | none => none

/-- The scanning loop of `update_current_task`: the first Prover or
TaskFetcher event of the window whose message yields a task id. -/
def update_current_task_aux : List Event → Option String
  | [] => none
  | e :: rest =>
    match e.worker with
    | Worker.ProofSubmitter => update_current_task_aux rest
    | _ =>
      match extractTaskId e.msg with
      | some t => some t
      | none => update_current_task_aux rest

/-- `DashboardState::update_current_task`. -/
def DashboardState.update_current_task (s : DashboardState) : DashboardState :=
  { s with current_task := update_current_task_aux (s.events.reverse.take 20) }

/-- A TaskFetcher terminal outcome that is not the "Step 1 of 4"
progress marker (rule 1 of the fetching state machine). -/
def isTerminalFetch (e : Event) : Bool :=
  e.worker == Worker.TaskFetcher
    && (e.event_type == EventType.Success || e.event_type == EventType.Error)
    && !strContains e.msg "Step 1 of 4"

/-- A TaskFetcher event carrying the requesting marker (rule 2 of the
fetching state machine). -/
def isRequestingFetch (e : Event) : Bool :=
  e.worker == Worker.TaskFetcher
    && strContains e.msg "Step 1 of 4: Requesting task..."

/-- Rust `matches!(fs, FetchingState::Active { .. })`. -/
def isActiveState : FetchingState → Bool
  | FetchingState.Active _ => true
  | _ => false

/-- The transition function of `update_fetching_state`. -/
def nextFetchingState (events : List Event) (fs : FetchingState) (now : Instant) :
    FetchingState :=
  if (events.reverse.take 5).any isTerminalFetch then FetchingState.Idle
  else if !isActiveState fs && (events.reverse.take 10).any isRequestingFetch then
    FetchingState.Active now
  else
    match fs with
    | FetchingState.Active started_at =>
      if 5 < elapsedSecs started_at now then FetchingState.Timeout else fs
    | _ => fs

/-- `DashboardState::update_fetching_state`. -/
def DashboardState.update_fetching_state (s : DashboardState) (now : Instant) :
    DashboardState :=
  { s with fetching_state := nextFetchingState s.events s.fetching_state now }

/-- The scanning loop of `update_prover_state`: the first StateChange
event of the window that carries a prover-state payload. -/
def update_prover_state_aux : List Event → Option Nat
  | [] => none
  | e :: rest =>
    if e.event_type == EventType.StateChange then
      match e.prover_state with
      | some st => some st
      | none => update_prover_state_aux rest
    else update_prover_state_aux rest

/-- The prover state published after one scan: the first qualifying
event's payload, or the previously published state when the window has
none. -/
def nextProverState (events : List Event) (cur : Option Nat) : Option Nat :=
  match update_prover_state_aux (events.reverse.take 10) with
  | some st => some st
  | none => cur

/-- `DashboardState::update_prover_state`: absence of a qualifying event
leaves the previously published state unchanged. -/
def DashboardState.update_prover_state (s : DashboardState) : DashboardState :=
  { s with current_prover_state := nextProverState s.events s.current_prover_state }

/-- `DashboardState::update`: the orchestrator, one cycle at clock `now`
with the external resource sample `sample`. -/
def DashboardState.update (s : DashboardState) (now : Instant)
    (sample : SystemMetrics) : DashboardState :=
  let s1 := { s with tick := s.tick + 1 }
  let s2 := s1.update_current_task
  let s3 := { s2 with
    system_metrics := SystemMetrics.update sample s2.system_metrics.peak_ram_bytes }
  let s4 := s3.update_zkvm_metrics now
  let s5 := s4.update_task_fetch_info now
  let s6 := s5.update_fetching_state now
  s6.update_prover_state

/-- A sequence of update cycles, each with its own clock value and
resource sample. -/
def runCycles : DashboardState → List (Instant × SystemMetrics) → DashboardState
  | s, [] => s
  | s, c :: rest => runCycles (s.update c.1 c.2) rest

/-! Predicates naming the event classes the aggregator reacts to, used
to state the theorems. -/

/-- The worker is a prover. -/
def isProverWorker : Worker → Bool
  | Worker.Prover _ => true
  | _ => false

/-- A successful task fetch as counted by `update_zkvm_metrics`. -/
def isFetchedSuccess (e : Event) : Bool :=
  e.worker == Worker.TaskFetcher
    && e.event_type == EventType.Success
    && !strContains e.msg "rate limited"
    && !strContains e.msg "retrying"
    && !strContains e.msg "Step 1 of 4"

/-- A successful proof submission as counted by `update_zkvm_metrics`. -/
def isSubmittedSuccess (e : Event) : Bool :=
  e.worker == Worker.ProofSubmitter
    && e.event_type == EventType.Success
    && strContains e.msg "Step 4 of 4: Proof submitted successfully"

/-- A Prover Success event whose message signals that proving begins. -/
def isStep2Begin (e : Event) : Bool :=
  isProverWorker e.worker
    && e.event_type == EventType.Success
    && strContains e.msg "Step 2 of 4: Proving task"

/-- A Prover Success event whose message signals that the proof was
generated (and that is not also a proving-begins message, which the
loop checks first). -/
def isStep3Done (e : Event) : Bool :=
  isProverWorker e.worker
    && e.event_type == EventType.Success
    && !strContains e.msg "Step 2 of 4: Proving task"
    && strContains e.msg "Step 3 of 4: Proof generated for task"

/-- A Prover Error event. -/
def isProverError (e : Event) : Bool :=
  isProverWorker e.worker && e.event_type == EventType.Error

/-- A ProofSubmitter Error event. -/
def isSubmitError (e : Event) : Bool :=
  e.worker == Worker.ProofSubmitter && e.event_type == EventType.Error

/-- How one event rewrites the running `last_status`, outside the
timer-closing branch. -/
def statusStep (st : String) (e : Event) : String :=
  if isProverError e then "Proof Failed"
  else if isSubmittedSuccess e then "Success"
  else if isSubmitError e then "Submit Failed"
  else st

/-- The task id the `update_current_task` scan reads off one event. -/
def scannedTask (e : Event) : Option String :=
  match e.worker with
  | Worker.ProofSubmitter => none
  | _ => extractTaskId e.msg

/-- The accumulator `update_zkvm_metrics` starts each cycle from. -/
def initAcc (s : DashboardState) : ZkAcc :=
  { tasks_fetched := 0, tasks_submitted := 0, last_status := "None",
    step2_start_time := s.step2_start_time,
    accumulated_runtime_secs := s.accumulated_runtime_secs,
    last_submission_timestamp := s.last_submission_timestamp }

/-! Projection lemmas: what one full update cycle publishes into each
snapshot field, read off the orchestrator's composition. -/

@[simp] theorem update_events (s : DashboardState) (now : Instant)
    (m : SystemMetrics) : (s.update now m).events = s.events := rfl

@[simp] theorem update_tick (s : DashboardState) (now : Instant)
    (m : SystemMetrics) : (s.update now m).tick = s.tick + 1 := rfl

@[simp] theorem update_current_task_val (s : DashboardState) (now : Instant)
    (m : SystemMetrics) :
    (s.update now m).current_task =
      update_current_task_aux (s.events.reverse.take 20) := rfl

@[simp] theorem update_fetching_val (s : DashboardState) (now : Instant)
    (m : SystemMetrics) :
    (s.update now m).fetching_state =
      nextFetchingState s.events s.fetching_state now := rfl

@[simp] theorem update_wsi_val (s : DashboardState) (now : Instant)
    (m : SystemMetrics) :
    (s.update now m).waiting_start_info =
      (update_task_fetch_info_aux now s.waiting_start_info
        (s.events.reverse.take 20)).1 := rfl

@[simp] theorem update_tfi_val (s : DashboardState) (now : Instant)
    (m : SystemMetrics) :
    (s.update now m).task_fetch_info =
      (update_task_fetch_info_aux now s.waiting_start_info
        (s.events.reverse.take 20)).2 := rfl

@[simp] theorem update_zkvm_val (s : DashboardState) (now : Instant)
    (m : SystemMetrics) :
    (s.update now m).zkvm_metrics =
      { tasks_executed :=
          max (s.events.foldl (zkStep now) (initAcc s)).tasks_submitted
            (s.events.foldl (zkStep now) (initAcc s)).tasks_fetched,
        tasks_proved := (s.events.foldl (zkStep now) (initAcc s)).tasks_submitted,
        zkvm_runtime_secs :=
          (s.events.foldl (zkStep now) (initAcc s)).accumulated_runtime_secs,
        last_task_status := (s.events.foldl (zkStep now) (initAcc s)).last_status,
        total_points :=
          (s.events.foldl (zkStep now) (initAcc s)).tasks_submitted * 300 } := rfl

@[simp] theorem update_runtime_val (s : DashboardState) (now : Instant)
    (m : SystemMetrics) :
    (s.update now m).accumulated_runtime_secs =
      (s.events.foldl (zkStep now) (initAcc s)).accumulated_runtime_secs := rfl

@[simp] theorem update_step2_val (s : DashboardState) (now : Instant)
    (m : SystemMetrics) :
    (s.update now m).step2_start_time =
      (s.events.foldl (zkStep now) (initAcc s)).step2_start_time := rfl

@[simp] theorem update_lastsub_val (s : DashboardState) (now : Instant)
    (m : SystemMetrics) :
    (s.update now m).last_submission_timestamp =
      (s.events.foldl (zkStep now) (initAcc s)).last_submission_timestamp := rfl

@[simp] theorem update_peak_val (s : DashboardState) (now : Instant)
    (m : SystemMetrics) :
    (s.update now m).system_metrics.peak_ram_bytes =
      max s.system_metrics.peak_ram_bytes m.ram_bytes := rfl

@[simp] theorem update_prover_val (s : DashboardState) (now : Instant)
    (m : SystemMetrics) :
    (s.update now m).current_prover_state =
      nextProverState s.events s.current_prover_state := rfl

/-! Componentwise description of one `update_zkvm_metrics` loop
iteration. -/

theorem zkStep_fetched (now : Instant) (a : ZkAcc) (e : Event) :
    (zkStep now a e).tasks_fetched =
      a.tasks_fetched + (if isFetchedSuccess e then 1 else 0) := by
  rcases e with ⟨ts, w, ty, msg, ps⟩
  cases w <;> cases ty <;>
    simp [zkStep, isFetchedSuccess, isProverWorker] <;>
    repeat' first | rfl | split

theorem zkStep_submitted (now : Instant) (a : ZkAcc) (e : Event) :
    (zkStep now a e).tasks_submitted =
      a.tasks_submitted + (if isSubmittedSuccess e then 1 else 0) := by
  rcases e with ⟨ts, w, ty, msg, ps⟩
  cases w <;> cases ty <;>
    simp [zkStep, isSubmittedSuccess, isProverWorker] <;>
    repeat' first | rfl | split

theorem zkStep_step2 (now : Instant) (a : ZkAcc) (e : Event) :
    (zkStep now a e).step2_start_time =
      if isStep2Begin e then some now
      else if isStep3Done e then none
      else a.step2_start_time := by
  rcases e with ⟨ts, w, ty, msg, ps⟩
  cases w <;> cases ty <;>
    simp [zkStep, isStep2Begin, isStep3Done, isProverWorker] <;>
    repeat' first | rfl | (split <;> try simp_all)

theorem zkStep_runtime (now : Instant) (a : ZkAcc) (e : Event) :
    (zkStep now a e).accumulated_runtime_secs =
      a.accumulated_runtime_secs +
        (if isStep3Done e then
          (match a.step2_start_time with
           | some t0 => elapsedNanos t0 now / nanosPerSec
           | none => 0)
         else 0) := by
  rcases e with ⟨ts, w, ty, msg, ps⟩
  cases w <;> cases ty <;>
    simp [zkStep, isStep3Done, isProverWorker] <;>
    repeat' first | rfl | (split <;> try simp_all)

theorem zkStep_status (now : Instant) (a : ZkAcc) (e : Event) :
    (zkStep now a e).last_status =
      if isStep3Done e then
        (match a.step2_start_time with
         | some t0 =>
           if 0 < elapsedNanos t0 now then "Proved" else a.last_status
         | none => a.last_status)
      else statusStep a.last_status e := by
  rcases e with ⟨ts, w, ty, msg, ps⟩
  cases w <;> cases ty <;>
    simp [zkStep, isStep3Done, statusStep, isProverError, isSubmittedSuccess,
      isSubmitError, isProverWorker] <;>
    repeat' first | rfl | (split <;> try simp_all)

theorem zkStep_lastsub (now : Instant) (a : ZkAcc) (e : Event) :
    (zkStep now a e).last_submission_timestamp =
      if isSubmittedSuccess e then some e.timestamp
      else a.last_submission_timestamp := by
  rcases e with ⟨ts, w, ty, msg, ps⟩
  cases w <;> cases ty <;>
    simp [zkStep, isSubmittedSuccess, isProverWorker] <;>
    repeat' first | rfl | (split <;> try simp_all)

/-! The same, folded over a whole event list. -/

theorem zkFold_fetched (now : Instant) (l : List Event) : ∀ a : ZkAcc,
    (l.foldl (zkStep now) a).tasks_fetched =
      a.tasks_fetched + l.countP isFetchedSuccess := by
  induction l with
  | nil => simp
  | cons e l ih =>
    intro a
    rw [List.foldl_cons, ih, zkStep_fetched, List.countP_cons]
    omega

theorem zkFold_submitted (now : Instant) (l : List Event) : ∀ a : ZkAcc,
    (l.foldl (zkStep now) a).tasks_submitted =
      a.tasks_submitted + l.countP isSubmittedSuccess := by
  induction l with
  | nil => simp
  | cons e l ih =>
    intro a
    rw [List.foldl_cons, ih, zkStep_submitted, List.countP_cons]
    omega

theorem zkStep_runtime_le (now : Instant) (a : ZkAcc) (e : Event) :
    a.accumulated_runtime_secs ≤ (zkStep now a e).accumulated_runtime_secs := by
  rw [zkStep_runtime]; exact Nat.le_add_right _ _

theorem zkFold_runtime_le (now : Instant) (l : List Event) : ∀ a : ZkAcc,
    a.accumulated_runtime_secs ≤
      (l.foldl (zkStep now) a).accumulated_runtime_secs := by
  induction l with
  | nil => intro a; simp
  | cons e l ih =>
    intro a
    exact le_trans (zkStep_runtime_le now a e) (ih (zkStep now a e))

/-- The proving anchor, if set, was set at the current clock reading
(no time has passed since). -/
def anchorOk (now : Instant) (a : ZkAcc) : Prop :=
  ∀ t0, a.step2_start_time = some t0 → elapsedNanos t0 now = 0

theorem zkStep_anchorOk (now : Instant) (a : ZkAcc) (e : Event)
    (h : anchorOk now a) : anchorOk now (zkStep now a e) := by
  intro t0 ht
  rw [zkStep_step2] at ht
  split at ht
  · obtain rfl : now = t0 := by injection ht
    simp [elapsedNanos]
  · split at ht
    · cases ht
    · exact h t0 ht

theorem zkStep_runtime_pure (now : Instant) (a : ZkAcc) (e : Event)
    (h : anchorOk now a) :
    (zkStep now a e).accumulated_runtime_secs = a.accumulated_runtime_secs := by
  rw [zkStep_runtime]
  rcases ha : a.step2_start_time with _ | t0
  · simp [ha]
  · simp [ha, h t0 ha]

theorem statusStep_of_step3 (st : String) (e : Event)
    (h : isStep3Done e = true) : statusStep st e = st := by
  rcases e with ⟨ts, w, ty, msg, ps⟩
  cases w <;> cases ty <;>
    simp_all [isStep3Done, statusStep, isProverError, isSubmittedSuccess,
      isSubmitError, isProverWorker]

theorem zkStep_status_pure (now : Instant) (a : ZkAcc) (e : Event)
    (h : anchorOk now a) :
    (zkStep now a e).last_status = statusStep a.last_status e := by
  rw [zkStep_status]
  by_cases h3 : isStep3Done e
  · rcases ha : a.step2_start_time with _ | t0
    · simp [h3, ha, statusStep_of_step3 _ _ h3]
    · simp [h3, ha, h t0 ha, statusStep_of_step3 _ _ h3]
  · simp [h3]

theorem zkFold_pure (now : Instant) (l : List Event) : ∀ a : ZkAcc,
    anchorOk now a →
    (l.foldl (zkStep now) a).accumulated_runtime_secs =
        a.accumulated_runtime_secs ∧
      (l.foldl (zkStep now) a).last_status = l.foldl statusStep a.last_status ∧
      anchorOk now (l.foldl (zkStep now) a) := by
  induction l with
  | nil => exact fun a h => ⟨rfl, rfl, h⟩
  | cons e l ih =>
    intro a h
    obtain ⟨hr, hs, hA⟩ := ih (zkStep now a e) (zkStep_anchorOk now a e h)
    refine ⟨?_, ?_, hA⟩
    · rw [List.foldl_cons, hr, zkStep_runtime_pure now a e h]
    · rw [List.foldl_cons, hs, zkStep_status_pure now a e h, List.foldl_cons]

theorem elapsedSecs_self (now : Instant) : elapsedSecs now now = 0 := by
  simp [elapsedSecs, elapsedNanos]

theorem nextFetching_idem (ev : List Event) (fs : FetchingState) (now : Instant)
    (hf : ∀ st, fs = FetchingState.Active st → elapsedSecs st now ≤ 5) :
    nextFetchingState ev (nextFetchingState ev fs now) now =
      nextFetchingState ev fs now := by
  by_cases h5 : (ev.reverse.take 5).any isTerminalFetch
  · simp [nextFetchingState, h5]
  · cases fs with
    | Active st =>
      have he : ¬ (5 < elapsedSecs st now) := by have := hf st rfl; omega
      simp [nextFetchingState, h5, isActiveState, he]
    | Idle =>
      by_cases h10 : (ev.reverse.take 10).any isRequestingFetch
      · simp [nextFetchingState, h5, isActiveState, h10, elapsedSecs_self]
      · simp [nextFetchingState, h5, isActiveState, h10]
    | Timeout =>
      by_cases h10 : (ev.reverse.take 10).any isRequestingFetch
      · simp [nextFetchingState, h5, isActiveState, h10, elapsedSecs_self]
      · simp [nextFetchingState, h5, isActiveState, h10]

theorem tfi_aux_no_match (now : Instant) (l : List Event) :
    ∀ wsi, (∀ e ∈ l, backoffSecs e = none) →
    update_task_fetch_info_aux now wsi l =
      (wsi, { backoff_duration_secs := 0, time_since_last_fetch_secs := 0,
              can_fetch_now := true }) := by
  induction l with
  | nil => intro wsi _; rfl
  | cons e l ih =>
    intro wsi h
    have he : backoffSecs e = none := h e (by simp)
    rw [update_task_fetch_info_aux, he]
    exact ih wsi (fun e' he' => h e' (by simp [he']))

theorem tfi_aux_first_match (now : Instant) (l : List Event) :
    ∀ (wsi : Option (Instant × Nat)) (w : Nat),
    l.findSome? backoffSecs = some w →
    (update_task_fetch_info_aux now wsi l).1 =
      (match wsi with
       | some (st, p) => if p = w then some (st, p) else some (now, w)
       | none => some (now, w)) := by
  induction l with
  | nil => intro wsi w h; rw [List.findSome?_nil] at h; cases h
  | cons e l ih =>
    intro wsi w h
    rw [List.findSome?_cons] at h
    cases hbe : backoffSecs e with
    | none =>
      rw [hbe] at h
      rw [update_task_fetch_info_aux, hbe]
      exact ih wsi w h
    | some w' =>
      rw [hbe] at h
      injection h with hw
      subst hw
      rw [update_task_fetch_info_aux, hbe]
      rcases wsi with _ | ⟨st, p⟩
      · simp
      · by_cases hp : p = w' <;> simp [hp]

theorem current_task_aux_eq (l : List Event) :
    update_current_task_aux l = l.findSome? scannedTask := by
  induction l with
  | nil => rfl
  | cons e l ih =>
    rw [List.findSome?_cons]
    cases hw : e.worker <;>
      simp [update_current_task_aux, scannedTask, hw, ih] <;>
      cases extractTaskId e.msg <;> simp [ih]
/-! Concrete snapshots used to evaluate the updaters at specific inputs. -/

/-- A freshly initialised snapshot with no events. -/
def emptyState : DashboardState :=
  { tick := 0, current_task := none,
    system_metrics := { cpu_percent := 0, ram_bytes := 0, peak_ram_bytes := 0 },
    zkvm_metrics := { tasks_executed := 0, tasks_proved := 0,
                      zkvm_runtime_secs := 0, last_task_status := "None",
                      total_points := 0 },
    task_fetch_info := { backoff_duration_secs := 0,
                         time_since_last_fetch_secs := 0, can_fetch_now := true },
    fetching_state := FetchingState.Idle,
    waiting_start_info := none,
    last_submission_timestamp := none,
    step2_start_time := none,
    accumulated_runtime_secs := 0,
    current_prover_state := none,
    events := [] }

/-- A zero resource sample. -/
def zeroSample : SystemMetrics :=
  { cpu_percent := 0, ram_bytes := 0, peak_ram_bytes := 0 }

/-- History holding a proving-begins event and then a proof-generated
event from the same prover. -/
def provingPairState : DashboardState :=
  { emptyState with events :=
    [{ timestamp := "t1", worker := Worker.Prover 0,
       event_type := EventType.Success,
       msg := "Step 2 of 4: Proving task Task-a", prover_state := none },
     { timestamp := "t2", worker := Worker.Prover 0,
       event_type := EventType.Success,
       msg := "Step 3 of 4: Proof generated for task", prover_state := none }] }

/-- C3: the code loses the proving duration.  With a history holding a
proving-begins event followed by a proof-generated event, one update
cycle re-anchors the timer while re-processing the begin event of the
same pass, so the elapsed duration between the two anchor readings is
zero: nothing is added to the accumulated runtime and the status is not
set to "Proved", although the claim says the wall-clock duration
between the two events is added and the status becomes "Proved". -/
theorem proving_runtime_lost_at_failing_input :
    (provingPairState.update 10000000000 zeroSample).zkvm_metrics.last_task_status
        ≠ "Proved" ∧
    (provingPairState.update 10000000000
        zeroSample).zkvm_metrics.zkvm_runtime_secs = 0 := by
  constructor <;> decide

/-- C2: across every sequence of update cycles, `tick` grows by exactly
one per cycle while `accumulated_runtime_secs` and `peak_ram_bytes`
never decrease. -/
theorem monotone_cycles (s : DashboardState)
    (l : List (Instant × SystemMetrics)) :
    (runCycles s l).tick = s.tick + l.length ∧
    s.accumulated_runtime_secs ≤ (runCycles s l).accumulated_runtime_secs ∧
    s.system_metrics.peak_ram_bytes ≤
      (runCycles s l).system_metrics.peak_ram_bytes := by
  induction l generalizing s with
  | nil => simp [runCycles]
  | cons c l ih =>
    obtain ⟨ht, hr, hp⟩ := ih (s.update c.1 c.2)
    refine ⟨?_, ?_, ?_⟩
    · rw [runCycles, ht, update_tick]; simp only [List.length_cons]; omega
    · exact le_trans (zkFold_runtime_le c.1 s.events (initAcc s)) hr
    · exact le_trans (Nat.le_max_left _ _) hp

/-- C4: every update cycle publishes `tasks_executed` as the larger of
the submitted and fetched counts, `tasks_proved` as the submitted
count, and `total_points` as 300 per submission, where the counts are
over the entire event history. -/
theorem derived_totals (s : DashboardState) (now : Instant)
    (m : SystemMetrics) :
    (s.update now m).zkvm_metrics.tasks_executed =
      max (s.events.countP isSubmittedSuccess)
        (s.events.countP isFetchedSuccess) ∧
    (s.update now m).zkvm_metrics.tasks_proved =
      s.events.countP isSubmittedSuccess ∧
    (s.update now m).zkvm_metrics.total_points =
      s.events.countP isSubmittedSuccess * 300 := by
  have hf := zkFold_fetched now s.events (initAcc s)
  have hs := zkFold_submitted now s.events (initAcc s)
  simp only [initAcc, Nat.zero_add] at hf hs
  refine ⟨?_, ?_, ?_⟩ <;> simp only [update_zkvm_val, initAcc] <;>
    simp [hf, hs]

/-- C5: whenever the 20-event window holds a parsable backoff message,
`waiting_start_info` is re-anchored to `now` exactly when the declared
duration differs from the tracked one (or nothing was tracked), and is
left unchanged when it is the same. -/
theorem backoff_reanchor_iff (s : DashboardState) (now : Instant)
    (m : SystemMetrics) (w : Nat)
    (h : (s.events.reverse.take 20).findSome? backoffSecs = some w) :
    (s.update now m).waiting_start_info =
      (match s.waiting_start_info with
       | some (st, p) => if p = w then some (st, p) else some (now, w)
       | none => some (now, w)) := by
  rw [update_wsi_val]
  exact tfi_aux_first_match now _ s.waiting_start_info w h

/-- History holding one backoff message declaring 30 seconds, with the
same period already tracked from instant 0. -/
def backoffMsgState : DashboardState :=
  { emptyState with
    waiting_start_info := some (0, 30),
    events := [{ timestamp := "t", worker := Worker.TaskFetcher,
                 event_type := EventType.Info,
                 msg := "Waiting - ready for next task (30)",
                 prover_state := none }] }

/-- C5, exercised: a repeated 30-second message keeps the anchor; a
tracked 10-second period is re-anchored to now by the 30-second one. -/
theorem backoff_reanchor_iff_witness :
    (backoffMsgState.update 2000000000 zeroSample).waiting_start_info =
        some (0, 30) ∧
    (({ backoffMsgState with waiting_start_info := some (5, 10) }
        : DashboardState).update 2000000000 zeroSample).waiting_start_info =
      some (2000000000, 30) := by
  constructor
  · rw [backoff_reanchor_iff backoffMsgState 2000000000 zeroSample 30 (by decide)]
    decide
  · rw [backoff_reanchor_iff _ 2000000000 zeroSample 30 (by decide)]
    decide

/-- C9: when no event of the 20-event window parses as a backoff
message, the published `task_fetch_info` is exactly the optimistic
default. -/
theorem backoff_default_on_exhausted_window (s : DashboardState)
    (now : Instant) (m : SystemMetrics)
    (h : ∀ e ∈ s.events.reverse.take 20, backoffSecs e = none) :
    (s.update now m).task_fetch_info =
      { backoff_duration_secs := 0, time_since_last_fetch_secs := 0,
        can_fetch_now := true } := by
  rw [update_tfi_val,
    tfi_aux_no_match now (s.events.reverse.take 20) s.waiting_start_info h]

/-- History holding only an unparsable TaskFetcher message. -/
def garbageSuccessState : DashboardState :=
  { emptyState with events :=
    [{ timestamp := "t", worker := Worker.TaskFetcher,
       event_type := EventType.Success, msg := "garbage",
       prover_state := none }] }

/-- C9, exercised on a window with no parsable backoff message. -/
theorem backoff_default_witness :
    (garbageSuccessState.update 3 zeroSample).task_fetch_info =
      { backoff_duration_secs := 0, time_since_last_fetch_secs := 0,
        can_fetch_now := true } :=
  backoff_default_on_exhausted_window garbageSuccessState 3 zeroSample
    (by decide)

/-- C10: closing the proving timer adds the elapsed duration truncated
to whole seconds; a positive duration under one second therefore leaves
the accumulated runtime unchanged while the status still becomes
"Proved". -/
theorem subsecond_runtime_truncation (now t0 : Instant) (a : ZkAcc)
    (e : Event) (he : isStep3Done e = true)
    (ha : a.step2_start_time = some t0)
    (hpos : 0 < elapsedNanos t0 now) :
    (zkStep now a e).accumulated_runtime_secs =
      a.accumulated_runtime_secs + elapsedNanos t0 now / nanosPerSec ∧
    (zkStep now a e).last_status = "Proved" ∧
    (elapsedNanos t0 now < nanosPerSec →
      (zkStep now a e).accumulated_runtime_secs =
        a.accumulated_runtime_secs) := by
  refine ⟨?_, ?_, ?_⟩
  · rw [zkStep_runtime]; simp [he, ha]
  · rw [zkStep_status]; simp [he, ha, hpos]
  · intro hlt
    rw [zkStep_runtime]
    simp [he, ha, Nat.div_eq_of_lt hlt]

/-- An accumulator whose proving timer was anchored half a second before
the clock reading used below. -/
def halfSecAcc : ZkAcc :=
  { tasks_fetched := 0, tasks_submitted := 0, last_status := "None",
    step2_start_time := some 0, accumulated_runtime_secs := 7,
    last_submission_timestamp := none }

/-- A proof-generated prover event. -/
def step3Event : Event :=
  { timestamp := "t", worker := Worker.Prover 0,
    event_type := EventType.Success,
    msg := "Step 3 of 4: Proof generated for task", prover_state := none }

/-- C10, exercised at a half-second proving duration. -/
theorem subsecond_runtime_truncation_witness :
    (zkStep 500000000 halfSecAcc step3Event).accumulated_runtime_secs = 7 ∧
    (zkStep 500000000 halfSecAcc step3Event).last_status = "Proved" := by
  obtain ⟨h1, h2, h3⟩ :=
    subsecond_runtime_truncation 500000000 0 halfSecAcc step3Event
      (by decide) rfl (by decide)
  exact ⟨by rw [h3 (by decide)]; rfl, h2⟩
/-- History whose only event is the requesting marker, with a fetch
already active for six seconds. -/
def staleActiveState : DashboardState :=
  { emptyState with
    fetching_state := FetchingState.Active 0,
    events := [{ timestamp := "t", worker := Worker.TaskFetcher,
                 event_type := EventType.Success,
                 msg := "Step 1 of 4: Requesting task...",
                 prover_state := none }] }

/-- C1 is false as stated: with the history and the clock both fixed,
the first cycle times the six-second-old Active fetch out, and the
second cycle — seeing the requesting marker still in the window and the
state no longer Active — flips it back to Active, so `fetching_state`
differs after two consecutive cycles. -/
theorem update_not_idempotent_counterexample :
    ((staleActiveState.update 6000000000 zeroSample).update 6000000000
        zeroSample).fetching_state ≠
      (staleActiveState.update 6000000000 zeroSample).fetching_state := by
  decide

/-- C1 (amended): with a fixed event history and a fixed clock, two
consecutive update cycles publish identical `zkvm_metrics`,
`current_task` and `fetching_state`, provided the starting snapshot's
proving anchor (if any) was taken at the current clock reading and its
fetching state (if Active) has not yet outlived the five-second
timeout. -/
theorem update_idempotent (s : DashboardState) (now : Instant)
    (m m' : SystemMetrics)
    (hanchor : ∀ t0, s.step2_start_time = some t0 → elapsedNanos t0 now = 0)
    (hactive : ∀ st, s.fetching_state = FetchingState.Active st →
      elapsedSecs st now ≤ 5) :
    ((s.update now m).update now m').zkvm_metrics =
        (s.update now m).zkvm_metrics ∧
    ((s.update now m).update now m').current_task =
        (s.update now m).current_task ∧
    ((s.update now m).update now m').fetching_state =
        (s.update now m).fetching_state := by
  have hA0 : anchorOk now (initAcc s) := hanchor
  obtain ⟨hr1, hs1, hA1⟩ := zkFold_pure now s.events (initAcc s) hA0
  have hA0' : anchorOk now (initAcc (s.update now m)) := hA1
  obtain ⟨hr2, hs2, hA2⟩ :=
    zkFold_pure now s.events (initAcc (s.update now m)) hA0'
  refine ⟨?_, ?_, ?_⟩
  · have hfet :
        (s.events.foldl (zkStep now) (initAcc (s.update now m))).tasks_fetched =
          (s.events.foldl (zkStep now) (initAcc s)).tasks_fetched := by
      rw [zkFold_fetched, zkFold_fetched]; rfl
    have hsub :
        (s.events.foldl (zkStep now)
            (initAcc (s.update now m))).tasks_submitted =
          (s.events.foldl (zkStep now) (initAcc s)).tasks_submitted := by
      rw [zkFold_submitted, zkFold_submitted]; rfl
    have hrun :
        (s.events.foldl (zkStep now)
            (initAcc (s.update now m))).accumulated_runtime_secs =
          (s.events.foldl (zkStep now) (initAcc s)).accumulated_runtime_secs := by
      rw [hr2]; rfl
    have hstat :
        (s.events.foldl (zkStep now) (initAcc (s.update now m))).last_status =
          (s.events.foldl (zkStep now) (initAcc s)).last_status := by
      rw [hs2, hs1]; rfl
    rw [update_zkvm_val, update_zkvm_val]
    simp only [update_events]
    rw [hfet, hsub, hrun, hstat]
  · rw [update_current_task_val, update_current_task_val, update_events]
  · simp only [update_fetching_val, update_events]
    exact nextFetching_idem s.events s.fetching_state now hactive

/-- C1 (amended), exercised from a consistent snapshot. -/
theorem update_idempotent_witness :
    ((backoffMsgState.update 4 zeroSample).update 4 zeroSample).zkvm_metrics =
        (backoffMsgState.update 4 zeroSample).zkvm_metrics ∧
    ((backoffMsgState.update 4 zeroSample).update 4 zeroSample).current_task =
        (backoffMsgState.update 4 zeroSample).current_task ∧
    ((backoffMsgState.update 4 zeroSample).update 4 zeroSample).fetching_state =
        (backoffMsgState.update 4 zeroSample).fetching_state :=
  update_idempotent backoffMsgState 4 zeroSample zeroSample
    (by intro t0 ht; simp [backoffMsgState, emptyState] at ht)
    (by intro st hst; simp [backoffMsgState, emptyState] at hst)

/-- C6 is false as stated: an Active fetch with 5.5 seconds — more than
5 seconds — of elapsed wall-clock time does not transition to Timeout,
because the code compares whole elapsed seconds (floor) with 5. -/
theorem fetch_timeout_boundary_counterexample :
    (5 * (nanosPerSec : Int) < 5500000000 - 0) ∧
    (({ emptyState with fetching_state := FetchingState.Active 0 }
        : DashboardState).update 5500000000 zeroSample).fetching_state =
      FetchingState.Active 0 := by
  constructor <;> decide

/-- C6 (amended): the fetch-activity transitions, in priority order: a
terminal TaskFetcher outcome in the 5-event window forces Idle; else a
requesting marker in the 10-event window while not Active starts
Active at now; else an Active fetch times out once strictly more than 5
whole elapsed seconds (that is, at least 6 seconds) have passed, and
keeps its original `started_at` until then; otherwise nothing changes. -/
theorem fetch_state_machine (s : DashboardState) (now : Instant)
    (m : SystemMetrics) :
    ((∃ e ∈ s.events.reverse.take 5, isTerminalFetch e = true) →
      (s.update now m).fetching_state = FetchingState.Idle) ∧
    ((∀ e ∈ s.events.reverse.take 5, isTerminalFetch e = false) →
      isActiveState s.fetching_state = false →
      (∃ e ∈ s.events.reverse.take 10, isRequestingFetch e = true) →
      (s.update now m).fetching_state = FetchingState.Active now) ∧
    (∀ st, (∀ e ∈ s.events.reverse.take 5, isTerminalFetch e = false) →
      s.fetching_state = FetchingState.Active st →
      5 < elapsedSecs st now →
      (s.update now m).fetching_state = FetchingState.Timeout) ∧
    (∀ st, (∀ e ∈ s.events.reverse.take 5, isTerminalFetch e = false) →
      s.fetching_state = FetchingState.Active st →
      elapsedSecs st now ≤ 5 →
      (s.update now m).fetching_state = FetchingState.Active st) ∧
    ((∀ e ∈ s.events.reverse.take 5, isTerminalFetch e = false) →
      isActiveState s.fetching_state = false →
      (∀ e ∈ s.events.reverse.take 10, isRequestingFetch e = false) →
      (s.update now m).fetching_state = s.fetching_state) := by
  simp only [update_fetching_val]
  refine ⟨?_, ?_, ?_, ?_, ?_⟩
  · intro h
    have h5 : (s.events.reverse.take 5).any isTerminalFetch = true :=
      List.any_eq_true.mpr h
    simp [nextFetchingState, h5]
  · intro hno hAct h10
    have h5 : (s.events.reverse.take 5).any isTerminalFetch = false :=
      List.any_eq_false.mpr (fun e he => by simp [hno e he])
    have h10' : (s.events.reverse.take 10).any isRequestingFetch = true :=
      List.any_eq_true.mpr h10
    simp [nextFetchingState, h5, hAct, h10']
  · intro st hno hfs hlt
    have h5 : (s.events.reverse.take 5).any isTerminalFetch = false :=
      List.any_eq_false.mpr (fun e he => by simp [hno e he])
    simp [nextFetchingState, h5, hfs, isActiveState, hlt]
  · intro st hno hfs hle
    have h5 : (s.events.reverse.take 5).any isTerminalFetch = false :=
      List.any_eq_false.mpr (fun e he => by simp [hno e he])
    have hnlt : ¬ 5 < elapsedSecs st now := by omega
    simp [nextFetchingState, h5, hfs, isActiveState, hnlt]
  · intro hno hAct h10
    have h5 : (s.events.reverse.take 5).any isTerminalFetch = false :=
      List.any_eq_false.mpr (fun e he => by simp [hno e he])
    have h10' : (s.events.reverse.take 10).any isRequestingFetch = false :=
      List.any_eq_false.mpr (fun e he => by simp [h10 e he])
    rcases hfs : s.fetching_state with _ | st | _
    · simp [nextFetchingState, h5, h10', hfs, isActiveState]
    · rw [hfs] at hAct; simp [isActiveState] at hAct
    · simp [nextFetchingState, h5, h10', hfs, isActiveState]

/-- The terminal fetch event used in the state-machine witness. -/
def terminalEvt : Event :=
  { timestamp := "t", worker := Worker.TaskFetcher,
    event_type := EventType.Success, msg := "Got task", prover_state := none }

/-- History whose most recent event is a terminal fetch Success. -/
def terminalFetchState : DashboardState :=
  { emptyState with
    fetching_state := FetchingState.Active 0,
    events := [terminalEvt] }

/-- C6 (amended), exercised: a terminal fetch event forces Idle, and an
Active fetch at six whole elapsed seconds times out. -/
theorem fetch_state_machine_witness :
    (terminalFetchState.update 0 zeroSample).fetching_state =
        FetchingState.Idle ∧
    (({ emptyState with fetching_state := FetchingState.Active 0 }
        : DashboardState).update 6000000000 zeroSample).fetching_state =
      FetchingState.Timeout := by
  constructor
  · exact (fetch_state_machine terminalFetchState 0 zeroSample).1
      ⟨terminalEvt, by decide, by decide⟩
  · exact (fetch_state_machine _ 6000000000 zeroSample).2.2.1 0
      (by intro e he; simp [emptyState] at he) rfl (by decide)

/-- History whose only event's message holds the marker followed
immediately by whitespace. -/
def bareMarkerState : DashboardState :=
  { emptyState with events :=
    [{ timestamp := "t", worker := Worker.TaskFetcher,
       event_type := EventType.Info, msg := "Task- x",
       prover_state := none }] }

/-- C7 is false as stated: the window's only event has no run of
non-whitespace characters after its "Task-" marker, so per the claim no
event yields an identifier and the current task should be cleared to
none; the code instead records the bare marker. -/
theorem current_task_bare_marker_counterexample :
    (bareMarkerState.update 0 zeroSample).current_task = some "Task-" ∧
    (bareMarkerState.update 0 zeroSample).current_task ≠ none := by
  constructor <;> decide

/-- C7 (amended): the published current task is the first value the
reverse scan of the 20 most recent events yields, where a ProofSubmitter
event yields nothing, and any other event yields, at the first
occurrence of "Task-" in its message, the segment up to the first
Unicode-whitespace character at or after the marker (possibly the bare
marker itself), or the whole remainder when no such character follows
and it extends past the marker, and nothing otherwise; when no event
yields a value the current task is cleared to none rather than kept. -/
theorem current_task_window_scan (s : DashboardState) (now : Instant)
    (m : SystemMetrics) :
    (s.update now m).current_task =
      (s.events.reverse.take 20).findSome? scannedTask ∧
    ((s.update now m).current_task = none ↔
      ∀ e ∈ s.events.reverse.take 20, scannedTask e = none) := by
  have h : (s.update now m).current_task =
      (s.events.reverse.take 20).findSome? scannedTask := by
    rw [update_current_task_val, current_task_aux_eq]
  refine ⟨h, ?_⟩
  rw [h]
  exact List.findSome?_eq_none_iff

/-- History announcing Task-abc from a prover. -/
def taskIdState : DashboardState :=
  { emptyState with events :=
    [{ timestamp := "t", worker := Worker.Prover 1,
       event_type := EventType.Success,
       msg := "Step 2 of 4: Proving task Task-abc now",
       prover_state := none }] }

/-- C7 (amended), exercised. -/
theorem current_task_window_scan_witness :
    (taskIdState.update 0 zeroSample).current_task = some "Task-abc" := by
  rw [(current_task_window_scan taskIdState 0 zeroSample).1]
  decide

/-- C8 is false as stated: appending a Success-typed TaskFetcher
"garbage" event to an empty history changes the published zkVM metrics,
because the event counts as a successful fetch. -/
theorem garbage_event_counterexample :
    (garbageSuccessState.update 1 zeroSample).zkvm_metrics ≠
      (emptyState.update 1 zeroSample).zkvm_metrics := by
  decide

/-- The unrecognized TaskFetcher event of the amended claim. -/
def garbageEvent (ts : String) : Event :=
  { timestamp := ts, worker := Worker.TaskFetcher,
    event_type := EventType.Info, msg := "garbage", prover_state := none }

theorem garbage_scan_current (ts : String) (l : List Event) :
    update_current_task_aux (garbageEvent ts :: l) =
      update_current_task_aux l := rfl

theorem garbage_scan_backoff (now : Instant) (wsi : Option (Instant × Nat))
    (ts : String) (l : List Event) :
    update_task_fetch_info_aux now wsi (garbageEvent ts :: l) =
      update_task_fetch_info_aux now wsi l := rfl

theorem garbage_scan_prover (ts : String) (l : List Event) :
    update_prover_state_aux (garbageEvent ts :: l) =
      update_prover_state_aux l := rfl

theorem garbage_not_terminal (ts : String) :
    isTerminalFetch (garbageEvent ts) = false := rfl

theorem garbage_not_requesting (ts : String) :
    isRequestingFetch (garbageEvent ts) = false := rfl

theorem garbage_zkStep (now : Instant) (a : ZkAcc) (ts : String) :
    zkStep now a (garbageEvent ts) = a := rfl

theorem garbage_nextFetching (ts : String) (ev : List Event)
    (fs : FetchingState) (now : Instant) (h : ev.length ≤ 4) :
    nextFetchingState (ev ++ [garbageEvent ts]) fs now =
      nextFetchingState ev fs now := by
  have hlen : ev.reverse.length ≤ 4 := by simpa using h
  have h4 : ev.reverse.take 4 = ev.reverse := List.take_of_length_le (by omega)
  have h5 : ev.reverse.take 5 = ev.reverse := List.take_of_length_le (by omega)
  have h9 : ev.reverse.take 9 = ev.reverse := List.take_of_length_le (by omega)
  have h10 : ev.reverse.take 10 = ev.reverse :=
    List.take_of_length_le (by omega)
  unfold nextFetchingState
  rw [List.reverse_append]
  simp only [List.reverse_singleton, List.singleton_append,
    List.take_succ_cons, List.any_cons, garbage_not_terminal,
    garbage_not_requesting, Bool.false_or, h4, h5, h9, h10]

theorem garbage_nextProver (ts : String) (ev : List Event) (cur : Option Nat)
    (h : ev.length ≤ 4) :
    nextProverState (ev ++ [garbageEvent ts]) cur = nextProverState ev cur := by
  have hlen : ev.reverse.length ≤ 4 := by simpa using h
  have h9 : ev.reverse.take 9 = ev.reverse := List.take_of_length_le (by omega)
  have h10 : ev.reverse.take 10 = ev.reverse :=
    List.take_of_length_le (by omega)
  unfold nextProverState
  rw [List.reverse_append]
  simp only [List.reverse_singleton, List.singleton_append,
    List.take_succ_cons, h9, h10, garbage_scan_prover]

/-- C8 (amended): appending an Info-typed TaskFetcher "garbage" event to
a history short enough that nothing is displaced from the look-back
windows leaves every tracked field of the next cycle unchanged; the
updaters are total functions, so no error can be raised. -/
theorem garbage_info_event_inert (s : DashboardState) (now : Instant)
    (m : SystemMetrics) (ts : String) (h : s.events.length ≤ 4) :
    (({ s with events := s.events ++ [garbageEvent ts] }
        : DashboardState).update now m).zkvm_metrics =
        (s.update now m).zkvm_metrics ∧
    (({ s with events := s.events ++ [garbageEvent ts] }
        : DashboardState).update now m).current_task =
        (s.update now m).current_task ∧
    (({ s with events := s.events ++ [garbageEvent ts] }
        : DashboardState).update now m).task_fetch_info =
        (s.update now m).task_fetch_info ∧
    (({ s with events := s.events ++ [garbageEvent ts] }
        : DashboardState).update now m).waiting_start_info =
        (s.update now m).waiting_start_info ∧
    (({ s with events := s.events ++ [garbageEvent ts] }
        : DashboardState).update now m).fetching_state =
        (s.update now m).fetching_state ∧
    (({ s with events := s.events ++ [garbageEvent ts] }
        : DashboardState).update now m).current_prover_state =
        (s.update now m).current_prover_state := by
  have hlen : s.events.reverse.length ≤ 4 := by simpa using h
  have h19 : s.events.reverse.take 19 = s.events.reverse :=
    List.take_of_length_le (by omega)
  have h20 : s.events.reverse.take 20 = s.events.reverse :=
    List.take_of_length_le (by omega)
  have hev : ({ s with events := s.events ++ [garbageEvent ts] }
      : DashboardState).events = s.events ++ [garbageEvent ts] := rfl
  have hIA : initAcc ({ s with events := s.events ++ [garbageEvent ts] }
      : DashboardState) = initAcc s := rfl
  have hwsi : ({ s with events := s.events ++ [garbageEvent ts] }
      : DashboardState).waiting_start_info = s.waiting_start_info := rfl
  have hfs : ({ s with events := s.events ++ [garbageEvent ts] }
      : DashboardState).fetching_state = s.fetching_state := rfl
  have hcps : ({ s with events := s.events ++ [garbageEvent ts] }
      : DashboardState).current_prover_state = s.current_prover_state := rfl
  refine ⟨?_, ?_, ?_, ?_, ?_, ?_⟩
  · simp only [update_zkvm_val, hev, hIA, List.foldl_append, List.foldl_cons,
      List.foldl_nil, garbage_zkStep]
  · simp only [update_current_task_val, hev, List.reverse_append,
      List.reverse_singleton, List.singleton_append, List.take_succ_cons,
      h19, h20, garbage_scan_current]
  · simp only [update_tfi_val, hev, hwsi, List.reverse_append,
      List.reverse_singleton, List.singleton_append, List.take_succ_cons,
      h19, h20, garbage_scan_backoff]
  · simp only [update_wsi_val, hev, hwsi, List.reverse_append,
      List.reverse_singleton, List.singleton_append, List.take_succ_cons,
      h19, h20, garbage_scan_backoff]
  · simp only [update_fetching_val, hev, hfs]
    exact garbage_nextFetching ts s.events s.fetching_state now h
  · simp only [update_prover_val, hev, hcps]
    exact garbage_nextProver ts s.events s.current_prover_state h

/-- C8 (amended), exercised on a one-event history. -/
theorem garbage_info_event_inert_witness :
    (({ taskIdState with events := taskIdState.events ++ [garbageEvent "t2"] }
        : DashboardState).update 0 zeroSample).zkvm_metrics =
        (taskIdState.update 0 zeroSample).zkvm_metrics ∧
    (({ taskIdState with events := taskIdState.events ++ [garbageEvent "t2"] }
        : DashboardState).update 0 zeroSample).current_task =
        (taskIdState.update 0 zeroSample).current_task := by
  obtain ⟨h1, h2, _, _, _, _⟩ :=
    garbage_info_event_inert taskIdState 0 zeroSample "t2" (by decide)
  exact ⟨h1, h2⟩
end NexusDashboard
